import Mathlib

/-!
# Trace-replay load generator: the command-line driver (`cmd/load.go`)

A shallow embedding of the driver of the load generator: `main`,
`runTraceMode` and `runStressMode`.

The driver is sequential code that calls collaborators living in other
packages (`tc`: trace parsing and profiling, `wu`: warmup, `fc`: deployment,
`gen`: load generation).  Their code is not part of the driver, so the
embedding

* records every collaborator call, with the arguments it receives, as an
  `Event` of an ordered call record, and
* takes the value each collaborator returns from a `World`, a family of
  responses that may depend on the whole call history so far (so the same
  collaborator may answer differently at each call).

Conventions.

* Go `int` values are mathematical integers here.  The only arithmetic in the
  driver is `*duration/2 + 1`; `profilingMinutes_fits_int64` shows that it
  cannot leave the 64-bit range, so no wrap-around is involved.
* Go integer division truncates towards zero: `Int.tdiv`.
* A slice expression `s[low:]` panics unless `0 ≤ low ≤ len(s)`: `sliceFrom`.
* A collaborator is taken at the value it returns, and is assumed not to write
  through the slices it is handed (the trace is read-only after parsing for
  everyone but the driver).
* Writes to the log and to standard output (`log.Info`, `fmt.Println` of the
  function names) are not collaborator calls and are left out of the call
  record; `log.Fatal`, which ends the process, is recorded.
* `init`, which parses the flags and configures logging and tracing before
  `main` runs, is represented by the `Flags` value handed to `main`.
-/

namespace tc

/-- Modelled from the spec: the `Function` type of the trace package is declared
outside `cmd/load.go`.  A function has an identity (name, invocation endpoint)
and the profiling result the driver attaches to it; `Stats` is the type of the
profiling summary, which the driver never inspects. -/
structure Function (Stats : Type) where
  Name : String
  Endpoint : String
  ConcurrencySats : Stats
  deriving DecidableEq, Repr

/-- Modelled from the spec: the `FunctionTraces` type of the trace package is
declared outside `cmd/load.go`.  These are the four fields the driver uses: the
functions, their warmup scales, and the two per-minute sequences (one entry per
minute, minute indices contiguous from 0). -/
structure FunctionTraces (Stats : Type) where
  Functions : List (Function Stats)
  WarmupScales : List Int
  InvocationsEachMinute : List (List Int)
  TotalInvocationsPerMinute : List Int
  deriving DecidableEq, Repr

end tc

namespace Loader

/-- The command-line flags read by the driver (`cmd/load.go`, lines 27-41). -/
structure Flags where
  mode : String
  cluster : Int
  duration : Int
  sampleSize : Int
  rps : Int
  rpsStart : Int
  rpsSlot : Int
  rpsStep : Int
  seed : Int
  withWarmup : Bool
  deriving DecidableEq, Repr

/-- The default value of every flag, as declared in `cmd/load.go`, lines 27-41. -/
def defaultFlags : Flags :=
  { mode := "trace"
    cluster := 1
    duration := 3
    sampleSize := 10
    rps := -900000
    rpsStart := 0
    rpsSlot := 1
    rpsStep := 1
    seed := 42
    withWarmup := false }

/-- The package-level variable `serviceConfigPath`. -/
def serviceConfigPath : String := "workloads/trace_func_go.yaml"

/-- One call made by the driver to a collaborator, with the arguments passed. -/
inductive Event (Stats : Type) where
  | InitSeed (seed : Int)
  | ParseInvocationTrace (path : String) (duration : Int)
  | ParseDurationTrace (traces : tc.FunctionTraces Stats) (path : String)
  | ParseMemoryTrace (traces : tc.FunctionTraces Stats) (path : String)
  | ProfileFunctionConcurrencies (function : tc.Function Stats) (profilingMinutes : Int)
  | ComputeFunctionsWarmupScales (cluster : Int) (functions : List (tc.Function Stats))
  | DeployTrace (functions : List (tc.Function Stats)) (path : String) (scales : List Int)
  | Warmup (sampleSize totalNumPhases rps : Int) (functions : List (tc.Function Stats))
      (traces : tc.FunctionTraces Stats)
  | DumpOverloadFlag
  | GenerateTraceLoads (sampleSize totalNumPhases startMinute : Int) (isMeasurementPhase : Bool)
      (rps : Int) (functions : List (tc.Function Stats))
      (invocationsEachMinute : List (List Int)) (totalInvocationsPerMinute : List Int)
  | GetFuncEndpoint (name : String)
  | DeployFunction (function : tc.Function Stats) (path : String) (scale : Int)
  | GenerateStressLoads (rpsStart rpsStep rpsSlot : Int) (function : tc.Function Stats)
  | Fatal (msg : String)
  deriving DecidableEq, Repr

/-- The values returned by the collaborators.  Every response takes the call
history so far as its first argument, followed by the arguments of the call.
The two parsers that receive `&traces` return the updated traces, and
`DeployFunction`, which receives `&function`, returns the updated function. -/
structure World (Stats : Type) where
  ParseInvocationTrace : List (Event Stats) → String → Int → tc.FunctionTraces Stats
  ParseDurationTrace : List (Event Stats) → tc.FunctionTraces Stats → String → tc.FunctionTraces Stats
  ParseMemoryTrace : List (Event Stats) → tc.FunctionTraces Stats → String → tc.FunctionTraces Stats
  ProfileFunctionConcurrencies : List (Event Stats) → tc.Function Stats → Int → Stats
  ComputeFunctionsWarmupScales : List (Event Stats) → Int → List (tc.Function Stats) → List Int
  DeployTrace : List (Event Stats) → List (tc.Function Stats) → String → List Int →
    List (tc.Function Stats)
  Warmup : List (Event Stats) → Int → Int → Int → List (tc.Function Stats) →
    tc.FunctionTraces Stats → Int
  GetFuncEndpoint : List (Event Stats) → String → String
  DeployFunction : List (Event Stats) → tc.Function Stats → String → Int → tc.Function Stats

/-- How a driver function ends: it returns, it panics (a slice bound out of
range), or the process is ended by `log.Fatal`. -/
inductive Status where
  | returned
  | panicked
  | fatal
  deriving DecidableEq, Repr

/-- The Go slice expression `s[low:]`: defined when `0 ≤ low ≤ len(s)`, a
run-time panic (`none`) otherwise. -/
def sliceFrom {α : Type} (s : List α) (low : Int) : Option (List α) :=
  if 0 ≤ low ∧ low ≤ (s.length : Int) then some (s.drop low.toNat) else none

/-- Line 96: `profilingMinutes := *duration/2 + 1`, with the truncating division
of Go. -/
def profilingMinutes (duration : Int) : Int :=
  Int.tdiv duration 2 + 1

/-- Lines 82-88, the trace parsing block: the three parser calls.  Returns the
value of `traces` after parsing and the calls made. -/
def parseTraces {Stats : Type} (w : World Stats) (flags : Flags) (hist : List (Event Stats)) :
    tc.FunctionTraces Stats × List (Event Stats) :=
  let invPath := "data/traces/" ++ toString flags.sampleSize ++ "_inv.csv"
  let runPath := "data/traces/" ++ toString flags.sampleSize ++ "_run.csv"
  let memPath := "data/traces/" ++ toString flags.sampleSize ++ "_mem.csv"
  let traces₀ := w.ParseInvocationTrace hist invPath flags.duration
  let log₁ := [Event.ParseInvocationTrace invPath flags.duration]
  let traces₁ := w.ParseDurationTrace (hist ++ log₁) traces₀ runPath
  let log₂ := log₁ ++ [Event.ParseDurationTrace traces₀ runPath]
  let traces₂ := w.ParseMemoryTrace (hist ++ log₂) traces₁ memPath
  let log₃ := log₂ ++ [Event.ParseMemoryTrace traces₁ memPath]
  (traces₂, log₃)

/-- Lines 100-104, the profiling loop
`for funcIdx := 0; funcIdx < len(traces.Functions); funcIdx++`.
The state is the pair of `traces` and the calls made so far; `fuel` bounds the
number of iterations and is `len(traces.Functions)` at the call site, which the
body does not change. -/
def profileLoop {Stats : Type} (w : World Stats) (hist : List (Event Stats)) (minutes : Int) :
    Nat → Nat → tc.FunctionTraces Stats × List (Event Stats) →
      tc.FunctionTraces Stats × List (Event Stats)
  | 0, _, st => st
  | fuel + 1, funcIdx, st =>
    if h : funcIdx < st.1.Functions.length then
      let function := st.1.Functions.get ⟨funcIdx, h⟩
      let stats := w.ProfileFunctionConcurrencies (hist ++ st.2) function minutes
      profileLoop w hist minutes fuel (funcIdx + 1)
        ({ st.1 with
            Functions := st.1.Functions.set funcIdx { function with ConcurrencySats := stats } },
          st.2 ++ [Event.ProfileFunctionConcurrencies function minutes])
    else st

/-- Lines 98-106, the profiling block: with warmup enabled, profile every
function and compute the warmup scales; otherwise leave `traces` untouched. -/
def profiling {Stats : Type} (w : World Stats) (flags : Flags) (hist : List (Event Stats))
    (st : tc.FunctionTraces Stats × List (Event Stats)) :
    tc.FunctionTraces Stats × List (Event Stats) :=
  if flags.withWarmup then
    let st₁ := profileLoop w hist (profilingMinutes flags.duration) st.1.Functions.length 0 st
    let scales := w.ComputeFunctionsWarmupScales (hist ++ st₁.2) flags.cluster st₁.1.Functions
    ({ st₁.1 with WarmupScales := scales },
      st₁.2 ++ [Event.ComputeFunctionsWarmupScales flags.cluster st₁.1.Functions])
  else st

/-- What `runTraceMode` leaves behind: the package-level `traces`, the locals
`functions` and `nextPhaseStart`, the collaborator calls it made, in order, and
how it ended. -/
structure TraceRun (Stats : Type) where
  traces : tc.FunctionTraces Stats
  functions : List (tc.Function Stats)
  nextPhaseStart : Int
  log : List (Event Stats)
  status : Status

/-- Lines 81-132: `runTraceMode`.  `hist` is the call history before the
function is entered; `log` in the result holds the calls made by the function
itself.  The deferred `GenerateTraceLoads` has its arguments evaluated at the
`defer` statement (where a slice bound out of range panics, before the call is
registered) and runs when the function returns, that is, last. -/
def runTraceMode {Stats : Type} (w : World Stats) (flags : Flags) (hist : List (Event Stats)) :
    TraceRun Stats :=
  /- Trace parsing -/
  let parsed := parseTraces w flags hist
  let totalNumPhases : Int := 3
  /- Profiling -/
  let prof := profiling w flags hist parsed
  let traces := prof.1
  /- Deployment -/
  let functions :=
    w.DeployTrace (hist ++ prof.2) traces.Functions serviceConfigPath traces.WarmupScales
  let log₁ := prof.2 ++ [Event.DeployTrace traces.Functions serviceConfigPath traces.WarmupScales]
  /- Warmup (Phase 1 and 2) -/
  let nextPhaseStart : Int :=
    if flags.withWarmup then
      w.Warmup (hist ++ log₁) flags.sampleSize totalNumPhases flags.rps functions traces
    else 0
  let log₂ :=
    if flags.withWarmup then
      log₁ ++ [Event.Warmup flags.sampleSize totalNumPhases flags.rps functions traces]
    else log₁
  /- Measurement (Phase 3) -/
  let log₃ := if nextPhaseStart = flags.duration then log₂ ++ [Event.DumpOverloadFlag] else log₂
  match sliceFrom traces.InvocationsEachMinute nextPhaseStart,
      sliceFrom traces.TotalInvocationsPerMinute nextPhaseStart with
  | some invocations, some totals =>
    { traces := traces
      functions := functions
      nextPhaseStart := nextPhaseStart
      log := log₃ ++ [Event.GenerateTraceLoads flags.sampleSize totalNumPhases nextPhaseStart true
        flags.rps functions invocations totals]
      status := Status.returned }
  | _, _ =>
    { traces := traces
      functions := functions
      nextPhaseStart := nextPhaseStart
      log := log₃
      status := Status.panicked }

/-- What `main` and `runStressMode` leave behind: the collaborator calls made,
in order, and how the run ended. -/
structure Outcome (Stats : Type) where
  log : List (Event Stats)
  status : Status

/-- Lines 134-142: `runStressMode`.  The function literal sets `Name` and
`Endpoint`; the remaining field has its zero value `default`. -/
def runStressMode {Stats : Type} [Inhabited Stats] (w : World Stats) (flags : Flags)
    (hist : List (Event Stats)) : Outcome Stats :=
  let endpoint := w.GetFuncEndpoint hist "stress-func"
  let log₁ := [Event.GetFuncEndpoint "stress-func"]
  let function₀ : tc.Function Stats :=
    { Name := "stress-func", Endpoint := endpoint, ConcurrencySats := default }
  let function := w.DeployFunction (hist ++ log₁) function₀ serviceConfigPath 0
  let log₂ := log₁ ++ [Event.DeployFunction function₀ serviceConfigPath 0]
  { log := log₂ ++ [Event.GenerateStressLoads flags.rpsStart flags.rpsStep flags.rpsSlot function]
    status := Status.returned }

/-- Lines 68-79: `main`. -/
def main {Stats : Type} [Inhabited Stats] (w : World Stats) (flags : Flags) : Outcome Stats :=
  let log₀ : List (Event Stats) := [Event.InitSeed flags.seed]
  if flags.mode = "trace" then
    let r := runTraceMode w flags log₀
    { log := log₀ ++ r.log, status := r.status }
  else if flags.mode = "stress" then
    let r := runStressMode w flags log₀
    { log := log₀ ++ r.log, status := r.status }
  else
    { log := log₀ ++ [Event.Fatal ("Invalid mode: " ++ flags.mode)], status := Status.fatal }

/-! ## Vocabulary for stating properties of a call record -/

/-- The functions of a trace after profiling, stated by recursion on the list:
each function receives the summary the profiler returns for it, and the call
is added to the history seen by the later calls. -/
def profiled {Stats : Type} (w : World Stats) (minutes : Int) :
    List (Event Stats) → List (tc.Function Stats) → List (tc.Function Stats)
  | _, [] => []
  | h, f :: fs =>
    { f with ConcurrencySats := w.ProfileFunctionConcurrencies h f minutes } ::
      profiled w minutes (h ++ [Event.ProfileFunctionConcurrencies f minutes]) fs

/-- The call is one of the three trace parser calls. -/
@[simp]
def Event.isParse {Stats : Type} : Event Stats → Bool
  | Event.ParseInvocationTrace _ _ => true
  | Event.ParseDurationTrace _ _ => true
  | Event.ParseMemoryTrace _ _ => true
  | _ => false

/-- The call is a call of the concurrency profiler. -/
@[simp]
def Event.isProfile {Stats : Type} : Event Stats → Bool
  | Event.ProfileFunctionConcurrencies _ _ => true
  | _ => false

/-- The call is a call of the warmup scale calculator. -/
@[simp]
def Event.isScale {Stats : Type} : Event Stats → Bool
  | Event.ComputeFunctionsWarmupScales _ _ => true
  | _ => false

/-- The call is the deployment of the trace functions. -/
@[simp]
def Event.isDeploy {Stats : Type} : Event Stats → Bool
  | Event.DeployTrace _ _ _ => true
  | _ => false

/-- The call is a call of the warmup governor. -/
@[simp]
def Event.isWarmup {Stats : Type} : Event Stats → Bool
  | Event.Warmup _ _ _ _ _ => true
  | _ => false

/-- The call raises the overload flag. -/
@[simp]
def Event.isOverload {Stats : Type} : Event Stats → Bool
  | Event.DumpOverloadFlag => true
  | _ => false

/-- The call is a call of the trace-mode dispatcher. -/
@[simp]
def Event.isDispatch {Stats : Type} : Event Stats → Bool
  | Event.GenerateTraceLoads _ _ _ _ _ _ _ _ => true
  | _ => false

/-- The call belongs to the stress pipeline. -/
@[simp]
def Event.isStress {Stats : Type} : Event Stats → Bool
  | Event.GetFuncEndpoint _ => true
  | Event.DeployFunction _ _ _ => true
  | Event.GenerateStressLoads _ _ _ _ => true
  | _ => false

/-- The call belongs to the trace pipeline. -/
@[simp]
def Event.isTrace {Stats : Type} (e : Event Stats) : Bool :=
  e.isParse || e.isProfile || e.isScale || e.isDeploy || e.isWarmup || e.isOverload ||
    e.isDispatch

/-- A trace of two functions with the given number of minutes. -/
def sampleTrace (minutes : Nat) : tc.FunctionTraces Nat :=
  { Functions := [{ Name := "f0", Endpoint := "e0", ConcurrencySats := 0 },
                  { Name := "f1", Endpoint := "e1", ConcurrencySats := 0 }]
    WarmupScales := []
    InvocationsEachMinute := (List.range minutes).map (fun m => [(m : Int), (m : Int) + 10])
    TotalInvocationsPerMinute := (List.range minutes).map (fun m => 2 * (m : Int) + 10) }

/-- A world whose parser yields the given trace and whose warmup returns the
given exit minute; the profiler reports the number of calls made before it. -/
def sampleWorld (traces : tc.FunctionTraces Nat) (exitMinute : Int) : World Nat :=
  { ParseInvocationTrace := fun _ _ _ => traces
    ParseDurationTrace := fun _ t _ => t
    ParseMemoryTrace := fun _ t _ => t
    ProfileFunctionConcurrencies := fun h _ _ => h.length
    ComputeFunctionsWarmupScales := fun _ _ fs => fs.map (fun _ => 1)
    DeployTrace := fun _ fs _ _ => fs
    Warmup := fun _ _ _ _ _ _ => exitMinute
    GetFuncEndpoint := fun _ name => name
    DeployFunction := fun _ f _ _ => f }

/-! ## Lemmas: arithmetic, slices, the profiling loop and the shape of a run -/

/-- For a duration `≥ 0` the truncating division is the rounding-down one. -/
theorem profilingMinutes_of_nonneg (d : Int) (h : 0 ≤ d) : profilingMinutes d = d / 2 + 1 := by
  unfold profilingMinutes
  rw [Int.tdiv_eq_ediv h (by decide)]

/-- For a negative duration the truncating division rounds towards zero. -/
theorem profilingMinutes_of_neg (d : Int) (h : d < 0) : profilingMinutes d = -((-d) / 2) + 1 := by
  unfold profilingMinutes
  have : d = -(-d) := by omega
  conv_lhs => rw [this, Int.neg_tdiv, Int.tdiv_eq_ediv (by omega : (0:Int) ≤ -d) (by decide)]

/-- The expression `duration/2 + 1` stays within the 64-bit range of `int`. -/
theorem profilingMinutes_fits_int64 (d : Int) (hlo : -2 ^ 63 ≤ d) (hhi : d < 2 ^ 63) :
    -2 ^ 63 ≤ profilingMinutes d ∧ profilingMinutes d < 2 ^ 63 := by
  rcases lt_or_le d 0 with h | h
  · rw [profilingMinutes_of_neg d h]; omega
  · rw [profilingMinutes_of_nonneg d h]; omega

/-- A slice expression with its bound in range yields the rest of the list. -/
theorem sliceFrom_eq_some {α : Type} (s : List α) (low : Int) (h₀ : 0 ≤ low)
    (h₁ : low ≤ (s.length : Int)) : sliceFrom s low = some (s.drop low.toNat) := by
  simp [sliceFrom, h₀, h₁]

/-- A slice expression with its bound out of range panics. -/
theorem sliceFrom_eq_none {α : Type} (s : List α) (low : Int)
    (h : ¬ (0 ≤ low ∧ low ≤ (s.length : Int))) : sliceFrom s low = none := by
  simp only [sliceFrom, h, if_false]

/-- The profiling loop, entered at index `done.length` with as many iterations
left as there are functions left, profiles every remaining function: the loop
ends by its guard, with all functions profiled and one call recorded each. -/
theorem profileLoop_spec {Stats : Type} (w : World Stats) (hist : List (Event Stats))
    (minutes : Int) (rest : List (tc.Function Stats)) :
    ∀ (done : List (tc.Function Stats)) (t : tc.FunctionTraces Stats) (l : List (Event Stats)),
      t.Functions = done ++ rest →
      profileLoop w hist minutes rest.length done.length (t, l) =
        ({ t with Functions := done ++ profiled w minutes (hist ++ l) rest },
          l ++ rest.map (fun f => Event.ProfileFunctionConcurrencies f minutes)) := by
  induction rest with
  | nil =>
    intro done t l ht
    simp [profileLoop, profiled, ← ht]
  | cons f rest ih =>
    intro done t l ht
    have hlt : done.length < t.Functions.length := by simp [ht]
    have hget : t.Functions.get ⟨done.length, hlt⟩ = f := by
      simp only [List.get_eq_getElem, ht]
      rw [List.getElem_append_right (le_refl _)]
      simp
    simp only [List.length_cons, profileLoop, hlt, dite_true, hget]
    generalize hf : ({ f with ConcurrencySats :=
      w.ProfileFunctionConcurrencies (hist ++ l) f minutes } : tc.Function Stats) = f1
    have hset : t.Functions.set done.length f1 = (done ++ [f1]) ++ rest := by
      simp [ht]
    rw [hset]
    have := ih (done ++ [f1]) { t with Functions := (done ++ [f1]) ++ rest }
        (l ++ [Event.ProfileFunctionConcurrencies f minutes]) rfl
    simp only [List.length_append, List.length_singleton] at this
    rw [this]
    simp [profiled, List.append_assoc, hf]

/-- Entry `i` of the profiled functions: function `i` with the summary returned
by its profiler call, which sees the calls for the functions before it. -/
theorem profiled_getElem? {Stats : Type} (w : World Stats) (minutes : Int)
    (fs : List (tc.Function Stats)) :
    ∀ (h : List (Event Stats)) (i : Nat),
      (profiled w minutes h fs)[i]? =
        (fs[i]?).map (fun f =>
          { f with
            ConcurrencySats := w.ProfileFunctionConcurrencies
              (h ++ (fs.take i).map (fun g => Event.ProfileFunctionConcurrencies g minutes))
              f minutes }) := by
  induction fs with
  | nil => intro h i; simp [profiled]
  | cons f fs ih =>
    intro h i
    cases i with
    | zero => simp [profiled]
    | succ i => simp [profiled, ih, List.append_assoc]

/-- The profiling block with warmup enabled. -/
theorem profiling_on {Stats : Type} (w : World Stats) (flags : Flags) (hist : List (Event Stats))
    (st : tc.FunctionTraces Stats × List (Event Stats)) (hw : flags.withWarmup = true) :
    profiling w flags hist st =
      ({ st.1 with
          Functions := profiled w (profilingMinutes flags.duration) (hist ++ st.2) st.1.Functions
          WarmupScales := w.ComputeFunctionsWarmupScales
            (hist ++ (st.2 ++ st.1.Functions.map
              (fun f => Event.ProfileFunctionConcurrencies f (profilingMinutes flags.duration))))
            flags.cluster
            (profiled w (profilingMinutes flags.duration) (hist ++ st.2) st.1.Functions) },
        st.2 ++ st.1.Functions.map
            (fun f => Event.ProfileFunctionConcurrencies f (profilingMinutes flags.duration)) ++
          [Event.ComputeFunctionsWarmupScales flags.cluster
            (profiled w (profilingMinutes flags.duration) (hist ++ st.2) st.1.Functions)]) := by
  have h := profileLoop_spec w hist (profilingMinutes flags.duration) st.1.Functions [] st.1 st.2
    (by simp)
  simp only [List.length_nil, List.nil_append] at h
  simp only [profiling, hw, if_true, h]

/-- The profiling block with warmup disabled changes nothing. -/
theorem profiling_off {Stats : Type} (w : World Stats) (flags : Flags) (hist : List (Event Stats))
    (st : tc.FunctionTraces Stats × List (Event Stats)) (hw : flags.withWarmup = false) :
    profiling w flags hist st = st := by
  simp [profiling, hw]

/-- The result of `runTraceMode` with the two slice bounds checks made explicit. -/
theorem runTraceMode_eq {Stats : Type} (w : World Stats) (flags : Flags)
    (hist : List (Event Stats)) :
    runTraceMode w flags hist =
      (let prof := profiling w flags hist (parseTraces w flags hist)
       let functions := w.DeployTrace (hist ++ prof.2) prof.1.Functions serviceConfigPath
        prof.1.WarmupScales
       let k : Int :=
        if flags.withWarmup then
          w.Warmup (hist ++ (prof.2 ++
            [Event.DeployTrace prof.1.Functions serviceConfigPath prof.1.WarmupScales]))
            flags.sampleSize 3 flags.rps functions prof.1
        else 0
       let pre := prof.2 ++
        [Event.DeployTrace prof.1.Functions serviceConfigPath prof.1.WarmupScales] ++
        (if flags.withWarmup then [Event.Warmup flags.sampleSize 3 flags.rps functions prof.1]
         else []) ++
        (if k = flags.duration then [Event.DumpOverloadFlag] else [])
       if 0 ≤ k ∧ k ≤ (prof.1.InvocationsEachMinute.length : Int) ∧
          k ≤ (prof.1.TotalInvocationsPerMinute.length : Int) then
        { traces := prof.1
          functions := functions
          nextPhaseStart := k
          log := pre ++ [Event.GenerateTraceLoads flags.sampleSize 3 k true flags.rps functions
            (prof.1.InvocationsEachMinute.drop k.toNat)
            (prof.1.TotalInvocationsPerMinute.drop k.toNat)]
          status := Status.returned }
       else
        { traces := prof.1
          functions := functions
          nextPhaseStart := k
          log := pre
          status := Status.panicked }) := by
  unfold runTraceMode
  simp only []
  generalize profiling w flags hist (parseTraces w flags hist) = prof
  generalize hk : (if flags.withWarmup = true then
      w.Warmup (hist ++ (prof.2 ++
        [Event.DeployTrace prof.1.Functions serviceConfigPath prof.1.WarmupScales]))
        flags.sampleSize 3 flags.rps
        (w.DeployTrace (hist ++ prof.2) prof.1.Functions serviceConfigPath prof.1.WarmupScales)
        prof.1
    else (0 : Int)) = k
  by_cases c₁ : 0 ≤ k ∧ k ≤ (prof.1.InvocationsEachMinute.length : Int)
  · by_cases c₂ : k ≤ (prof.1.TotalInvocationsPerMinute.length : Int)
    · have hc : 0 ≤ k ∧ k ≤ (prof.1.InvocationsEachMinute.length : Int) ∧
          k ≤ (prof.1.TotalInvocationsPerMinute.length : Int) := ⟨c₁.1, c₁.2, c₂⟩
      rw [sliceFrom_eq_some _ _ c₁.1 c₁.2, sliceFrom_eq_some _ _ c₁.1 c₂, if_pos hc]
      cases flags.withWarmup <;> by_cases hd : k = flags.duration <;> simp [hd]
    · have hc : ¬ (0 ≤ k ∧ k ≤ (prof.1.InvocationsEachMinute.length : Int) ∧
          k ≤ (prof.1.TotalInvocationsPerMinute.length : Int)) := fun h => c₂ h.2.2
      rw [sliceFrom_eq_some _ _ c₁.1 c₁.2, sliceFrom_eq_none _ _ (fun h => c₂ h.2), if_neg hc]
      cases flags.withWarmup <;> by_cases hd : k = flags.duration <;> simp [hd]
  · have hc : ¬ (0 ≤ k ∧ k ≤ (prof.1.InvocationsEachMinute.length : Int) ∧
        k ≤ (prof.1.TotalInvocationsPerMinute.length : Int)) := fun h => c₁ ⟨h.1, h.2.1⟩
    rw [sliceFrom_eq_none _ _ c₁, if_neg hc]
    cases flags.withWarmup <;> by_cases hd : k = flags.duration <;> simp [hd]

/-- The traces left by a run are those left by the profiling block. -/
theorem runTraceMode_traces {Stats : Type} (w : World Stats) (flags : Flags)
    (hist : List (Event Stats)) :
    (runTraceMode w flags hist).traces = (profiling w flags hist (parseTraces w flags hist)).1 := by
  rw [runTraceMode_eq]
  simp only []
  split_ifs <;> rfl

/-- The local `functions` is what `DeployTrace` returned. -/
theorem runTraceMode_functions {Stats : Type} (w : World Stats) (flags : Flags)
    (hist : List (Event Stats)) :
    (runTraceMode w flags hist).functions =
      w.DeployTrace (hist ++ (profiling w flags hist (parseTraces w flags hist)).2)
        (runTraceMode w flags hist).traces.Functions serviceConfigPath
        (runTraceMode w flags hist).traces.WarmupScales := by
  rw [runTraceMode_traces, runTraceMode_eq]
  simp only []
  split_ifs <;> rfl

/-- The local `nextPhaseStart` is what `Warmup` returned, or 0 without warmup. -/
theorem runTraceMode_nextPhaseStart {Stats : Type} (w : World Stats) (flags : Flags)
    (hist : List (Event Stats)) :
    (runTraceMode w flags hist).nextPhaseStart =
      if flags.withWarmup then
        w.Warmup (hist ++ ((profiling w flags hist (parseTraces w flags hist)).2 ++
            [Event.DeployTrace (runTraceMode w flags hist).traces.Functions serviceConfigPath
              (runTraceMode w flags hist).traces.WarmupScales]))
          flags.sampleSize 3 flags.rps (runTraceMode w flags hist).functions
          (runTraceMode w flags hist).traces
      else 0 := by
  rw [runTraceMode_functions, runTraceMode_traces, runTraceMode_eq]
  simp only []
  split_ifs <;> rfl

/-- The bounds check of the two slice expressions of the `defer` statement. -/
theorem runTraceMode_status {Stats : Type} (w : World Stats) (flags : Flags)
    (hist : List (Event Stats)) :
    (runTraceMode w flags hist).status =
      if 0 ≤ (runTraceMode w flags hist).nextPhaseStart ∧
          (runTraceMode w flags hist).nextPhaseStart ≤
            ((runTraceMode w flags hist).traces.InvocationsEachMinute.length : Int) ∧
          (runTraceMode w flags hist).nextPhaseStart ≤
            ((runTraceMode w flags hist).traces.TotalInvocationsPerMinute.length : Int)
      then Status.returned else Status.panicked := by
  rw [runTraceMode_eq]
  simp only []
  split_ifs <;> rfl

/-- The calls made by `runTraceMode`, in order. -/
theorem runTraceMode_log {Stats : Type} (w : World Stats) (flags : Flags)
    (hist : List (Event Stats)) :
    (runTraceMode w flags hist).log =
      (profiling w flags hist (parseTraces w flags hist)).2 ++
        [Event.DeployTrace (runTraceMode w flags hist).traces.Functions serviceConfigPath
          (runTraceMode w flags hist).traces.WarmupScales] ++
        (if flags.withWarmup then
          [Event.Warmup flags.sampleSize 3 flags.rps (runTraceMode w flags hist).functions
            (runTraceMode w flags hist).traces]
         else []) ++
        (if (runTraceMode w flags hist).nextPhaseStart = flags.duration then
          [Event.DumpOverloadFlag] else []) ++
        (if (runTraceMode w flags hist).status = Status.returned then
          [Event.GenerateTraceLoads flags.sampleSize 3 (runTraceMode w flags hist).nextPhaseStart
            true flags.rps (runTraceMode w flags hist).functions
            ((runTraceMode w flags hist).traces.InvocationsEachMinute.drop
              (runTraceMode w flags hist).nextPhaseStart.toNat)
            ((runTraceMode w flags hist).traces.TotalInvocationsPerMinute.drop
              (runTraceMode w flags hist).nextPhaseStart.toNat)]
         else []) := by
  rw [runTraceMode_eq]
  simp only []
  split_ifs <;> simp_all

/-- Without warmup: the run never panics, starts at minute 0, and makes the
three parser calls, the deploy call, the overload call when the duration is 0,
and the dispatch call on the whole trace. -/
theorem runTraceMode_off {Stats : Type} (w : World Stats) (flags : Flags)
    (hist : List (Event Stats)) (hw : flags.withWarmup = false) :
    (runTraceMode w flags hist).traces = (parseTraces w flags hist).1 ∧
    (runTraceMode w flags hist).nextPhaseStart = 0 ∧
    (runTraceMode w flags hist).status = Status.returned ∧
    (runTraceMode w flags hist).log =
      (parseTraces w flags hist).2 ++
        [Event.DeployTrace (parseTraces w flags hist).1.Functions serviceConfigPath
          (parseTraces w flags hist).1.WarmupScales] ++
        (if flags.duration = 0 then [Event.DumpOverloadFlag] else []) ++
        [Event.GenerateTraceLoads flags.sampleSize 3 0 true flags.rps
          (runTraceMode w flags hist).functions
          (parseTraces w flags hist).1.InvocationsEachMinute
          (parseTraces w flags hist).1.TotalInvocationsPerMinute] := by
  have ht : (runTraceMode w flags hist).traces = (parseTraces w flags hist).1 := by
    rw [runTraceMode_traces, profiling_off w flags hist _ hw]
  have hk : (runTraceMode w flags hist).nextPhaseStart = 0 := by
    rw [runTraceMode_nextPhaseStart]; simp [hw]
  have hs : (runTraceMode w flags hist).status = Status.returned := by
    rw [runTraceMode_status, hk]; simp
  refine ⟨ht, hk, hs, ?_⟩
  rw [runTraceMode_log, hs, hk, ht, profiling_off w flags hist _ hw]
  simp [hw, eq_comm]

/-- The three parser calls. -/
theorem parseTraces_log {Stats : Type} (w : World Stats) (flags : Flags)
    (hist : List (Event Stats)) :
    ∃ t₀ t₁ p₀ p₁ p₂, (parseTraces w flags hist).2 =
      [Event.ParseInvocationTrace p₀ flags.duration, Event.ParseDurationTrace t₀ p₁,
        Event.ParseMemoryTrace t₁ p₂] :=
  ⟨_, _, _, _, _, rfl⟩

/-- With warmup: the parser calls, one profiler call per parsed function in
index order, the scale computation, the deploy call, the warmup call, then the
overload call when the exit minute is the duration, then the dispatch call
unless a slice bound is out of range. -/
theorem runTraceMode_on {Stats : Type} (w : World Stats) (flags : Flags)
    (hist : List (Event Stats)) (hw : flags.withWarmup = true) :
    (runTraceMode w flags hist).traces =
      { (parseTraces w flags hist).1 with
        Functions := profiled w (profilingMinutes flags.duration)
          (hist ++ (parseTraces w flags hist).2) (parseTraces w flags hist).1.Functions
        WarmupScales := w.ComputeFunctionsWarmupScales
          (hist ++ ((parseTraces w flags hist).2 ++ (parseTraces w flags hist).1.Functions.map
            (fun f => Event.ProfileFunctionConcurrencies f (profilingMinutes flags.duration))))
          flags.cluster
          (profiled w (profilingMinutes flags.duration)
            (hist ++ (parseTraces w flags hist).2) (parseTraces w flags hist).1.Functions) } ∧
    (runTraceMode w flags hist).log =
      (parseTraces w flags hist).2 ++
        (parseTraces w flags hist).1.Functions.map
          (fun f => Event.ProfileFunctionConcurrencies f (profilingMinutes flags.duration)) ++
        [Event.ComputeFunctionsWarmupScales flags.cluster
            (runTraceMode w flags hist).traces.Functions,
          Event.DeployTrace (runTraceMode w flags hist).traces.Functions serviceConfigPath
            (runTraceMode w flags hist).traces.WarmupScales,
          Event.Warmup flags.sampleSize 3 flags.rps (runTraceMode w flags hist).functions
            (runTraceMode w flags hist).traces] ++
        (if (runTraceMode w flags hist).nextPhaseStart = flags.duration then
          [Event.DumpOverloadFlag] else []) ++
        (if (runTraceMode w flags hist).status = Status.returned then
          [Event.GenerateTraceLoads flags.sampleSize 3 (runTraceMode w flags hist).nextPhaseStart
            true flags.rps (runTraceMode w flags hist).functions
            ((runTraceMode w flags hist).traces.InvocationsEachMinute.drop
              (runTraceMode w flags hist).nextPhaseStart.toNat)
            ((runTraceMode w flags hist).traces.TotalInvocationsPerMinute.drop
              (runTraceMode w flags hist).nextPhaseStart.toNat)]
         else []) := by
  have ht := runTraceMode_traces w flags hist
  rw [profiling_on w flags hist _ hw] at ht
  refine ⟨ht, ?_⟩
  rw [runTraceMode_log w flags hist, profiling_on w flags hist _ hw]
  simp only [ht, hw, if_true]
  simp

/-- The dispatch call of a run that does not panic: it is the only dispatch
call, and it receives the two sequences from index `nextPhaseStart` on. -/
theorem runTraceMode_dispatch {Stats : Type} (w : World Stats) (flags : Flags)
    (hist : List (Event Stats))
    (h₀ : 0 ≤ (runTraceMode w flags hist).nextPhaseStart)
    (h₁ : (runTraceMode w flags hist).nextPhaseStart ≤
      ((runTraceMode w flags hist).traces.InvocationsEachMinute.length : Int))
    (h₂ : (runTraceMode w flags hist).nextPhaseStart ≤
      ((runTraceMode w flags hist).traces.TotalInvocationsPerMinute.length : Int)) :
    (runTraceMode w flags hist).status = Status.returned ∧
    (runTraceMode w flags hist).log.filter Event.isDispatch =
      [Event.GenerateTraceLoads flags.sampleSize 3 (runTraceMode w flags hist).nextPhaseStart
        true flags.rps (runTraceMode w flags hist).functions
        ((runTraceMode w flags hist).traces.InvocationsEachMinute.drop
          (runTraceMode w flags hist).nextPhaseStart.toNat)
        ((runTraceMode w flags hist).traces.TotalInvocationsPerMinute.drop
          (runTraceMode w flags hist).nextPhaseStart.toNat)] := by
  have hs : (runTraceMode w flags hist).status = Status.returned := by
    rw [runTraceMode_status, if_pos ⟨h₀, h₁, h₂⟩]
  refine ⟨hs, ?_⟩
  obtain ⟨t₀, t₁, p₀, p₁, p₂, hp⟩ := parseTraces_log w flags hist
  cases hw : flags.withWarmup
  · obtain ⟨ht, hk, -, hl⟩ := runTraceMode_off w flags hist hw
    rw [hl, hp, hk, ht]
    by_cases hd : flags.duration = 0 <;> simp [hd, List.filter_cons]
  · obtain ⟨-, hl⟩ := runTraceMode_on w flags hist hw
    rw [hl, hp, hs]
    by_cases hd : (runTraceMode w flags hist).nextPhaseStart = flags.duration <;>
      simp [hd, List.filter_cons, List.filter_map, List.filter_eq_nil_iff]

/-- The overload call is made exactly when the start minute of the measurement
equals the duration, and then once. -/
theorem runTraceMode_overload {Stats : Type} (w : World Stats) (flags : Flags)
    (hist : List (Event Stats)) :
    (runTraceMode w flags hist).log.filter Event.isOverload =
      if (runTraceMode w flags hist).nextPhaseStart = flags.duration then
        [Event.DumpOverloadFlag] else [] := by
  obtain ⟨t₀, t₁, p₀, p₁, p₂, hp⟩ := parseTraces_log w flags hist
  cases hw : flags.withWarmup
  · obtain ⟨-, hk, -, hl⟩ := runTraceMode_off w flags hist hw
    rw [hl, hp, hk]
    by_cases hd : flags.duration = 0 <;> simp [hd, List.filter_cons, eq_comm]
  · obtain ⟨-, hl⟩ := runTraceMode_on w flags hist hw
    rw [hl, hp]
    by_cases hd : (runTraceMode w flags hist).nextPhaseStart = flags.duration <;>
      by_cases hs : (runTraceMode w flags hist).status = Status.returned <;>
      simp [hd, hs, List.filter_cons, List.filter_map, List.filter_eq_nil_iff]

/-- Floor division by 2, written with the division of `Int`. -/
theorem fdiv_two (d : Int) : Int.fdiv d 2 = d / 2 :=
  Int.fdiv_eq_ediv d (by decide)

/-- With warmup enabled the warmup governor is called exactly once, and
`nextPhaseStart` is the value it returns. -/
theorem runTraceMode_warmup {Stats : Type} (w : World Stats) (flags : Flags)
    (hist : List (Event Stats)) (hw : flags.withWarmup = true) :
    (runTraceMode w flags hist).log.filter Event.isWarmup =
      [Event.Warmup flags.sampleSize 3 flags.rps (runTraceMode w flags hist).functions
        (runTraceMode w flags hist).traces] ∧
    (runTraceMode w flags hist).nextPhaseStart =
      w.Warmup (hist ++ ((profiling w flags hist (parseTraces w flags hist)).2 ++
          [Event.DeployTrace (runTraceMode w flags hist).traces.Functions serviceConfigPath
            (runTraceMode w flags hist).traces.WarmupScales]))
        flags.sampleSize 3 flags.rps (runTraceMode w flags hist).functions
        (runTraceMode w flags hist).traces := by
  constructor
  · obtain ⟨t₀, t₁, p₀, p₁, p₂, hp⟩ := parseTraces_log w flags hist
    obtain ⟨-, hl⟩ := runTraceMode_on w flags hist hw
    rw [hl, hp]
    by_cases hd : (runTraceMode w flags hist).nextPhaseStart = flags.duration <;>
      by_cases hs : (runTraceMode w flags hist).status = Status.returned <;>
      simp [hd, hs, List.filter_cons, List.filter_map, List.filter_eq_nil_iff]
  · have h := runTraceMode_nextPhaseStart w flags hist
    rw [if_pos hw] at h
    exact h

/-- The profiler calls of a run: none without warmup, one per parsed function,
in index order, with warmup. -/
theorem runTraceMode_profile_calls {Stats : Type} (w : World Stats) (flags : Flags)
    (hist : List (Event Stats)) :
    (runTraceMode w flags hist).log.filter Event.isProfile =
      if flags.withWarmup then
        (parseTraces w flags hist).1.Functions.map
          (fun f => Event.ProfileFunctionConcurrencies f (profilingMinutes flags.duration))
      else [] := by
  obtain ⟨t₀, t₁, p₀, p₁, p₂, hp⟩ := parseTraces_log w flags hist
  cases hw : flags.withWarmup
  · obtain ⟨-, -, -, hl⟩ := runTraceMode_off w flags hist hw
    rw [hl, hp]
    by_cases hd : flags.duration = 0 <;> simp [hd, List.filter_cons]
  · obtain ⟨-, hl⟩ := runTraceMode_on w flags hist hw
    have hself : ∀ fs : List (tc.Function Stats),
        List.filter (Event.isProfile ∘
          fun f => Event.ProfileFunctionConcurrencies f (profilingMinutes flags.duration)) fs =
          fs :=
      fun fs => List.filter_eq_self.2 (fun a _ => by simp)
    rw [hl, hp]
    by_cases hd : (runTraceMode w flags hist).nextPhaseStart = flags.duration <;>
      by_cases hs : (runTraceMode w flags hist).status = Status.returned <;>
      simp [hd, hs, List.filter_cons, List.filter_map, hself]

/-- Every call made by `runTraceMode` belongs to the trace pipeline. -/
theorem runTraceMode_isTrace {Stats : Type} (w : World Stats) (flags : Flags)
    (hist : List (Event Stats)) :
    ∀ e ∈ (runTraceMode w flags hist).log, e.isTrace = true := by
  obtain ⟨t₀, t₁, p₀, p₁, p₂, hp⟩ := parseTraces_log w flags hist
  refine List.all_eq_true.1 ?_
  cases hw : flags.withWarmup
  · obtain ⟨-, -, -, hl⟩ := runTraceMode_off w flags hist hw
    rw [hl, hp]
    by_cases hd : flags.duration = 0 <;> simp [hd, Event.isTrace, List.all_append]
  · obtain ⟨-, hl⟩ := runTraceMode_on w flags hist hw
    rw [hl, hp]
    by_cases hd : (runTraceMode w flags hist).nextPhaseStart = flags.duration <;>
      by_cases hs : (runTraceMode w flags hist).status = Status.returned <;>
      simp [hd, hs, Event.isTrace, List.all_append, List.all_map]

/-- A call of the trace pipeline is neither a stress-pipeline call nor a fatal
error. -/
theorem isTrace_exclusive {Stats : Type} (e : Event Stats) (h : e.isTrace = true) :
    e.isStress = false ∧ ∀ msg, e ≠ Event.Fatal msg := by
  cases e <;> simp [Event.isTrace] at h ⊢

/-- Membership of the overload call in the call record. -/
theorem runTraceMode_overload_mem {Stats : Type} (w : World Stats) (flags : Flags)
    (hist : List (Event Stats)) :
    Event.DumpOverloadFlag ∈ (runTraceMode w flags hist).log ↔
      (runTraceMode w flags hist).nextPhaseStart = flags.duration := by
  have hmem : Event.DumpOverloadFlag ∈ (runTraceMode w flags hist).log ↔
      Event.DumpOverloadFlag ∈ (runTraceMode w flags hist).log.filter Event.isOverload := by
    simp [List.mem_filter]
  rw [hmem, runTraceMode_overload]
  by_cases h : (runTraceMode w flags hist).nextPhaseStart = flags.duration <;> simp [h]

/-! ## The claims -/

/-- C1: with warmup disabled, for every trace and every duration, `runTraceMode`
never calls the warmup governor, does not panic, and calls the measurement
dispatcher exactly once, as its last call, with `startMinute = 0`,
`isMeasurementPhase = true` and the complete sequences `InvocationsEachMinute`
and `TotalInvocationsPerMinute` (starting at index 0); for duration 3 and a
trace of the three minutes `m₀, m₁, m₂` the dispatched minutes are exactly
`m₀, m₁, m₂`. -/
theorem C1_no_warmup_dispatches_whole_trace {Stats : Type} (w : World Stats) (flags : Flags)
    (hist : List (Event Stats)) (hw : flags.withWarmup = false) :
    (runTraceMode w flags hist).log.filter Event.isWarmup = [] ∧
    (runTraceMode w flags hist).status = Status.returned ∧
    (runTraceMode w flags hist).log.filter Event.isDispatch =
      [Event.GenerateTraceLoads flags.sampleSize 3 0 true flags.rps
        (runTraceMode w flags hist).functions
        (runTraceMode w flags hist).traces.InvocationsEachMinute
        (runTraceMode w flags hist).traces.TotalInvocationsPerMinute] ∧
    (runTraceMode w flags hist).log.getLast? =
      some (Event.GenerateTraceLoads flags.sampleSize 3 0 true flags.rps
        (runTraceMode w flags hist).functions
        (runTraceMode w flags hist).traces.InvocationsEachMinute
        (runTraceMode w flags hist).traces.TotalInvocationsPerMinute) ∧
    (flags.duration = 3 → ∀ (m₀ m₁ m₂ : List Int) (t₀ t₁ t₂ : Int),
      (runTraceMode w flags hist).traces.InvocationsEachMinute = [m₀, m₁, m₂] →
      (runTraceMode w flags hist).traces.TotalInvocationsPerMinute = [t₀, t₁, t₂] →
      (runTraceMode w flags hist).log.filter Event.isDispatch =
        [Event.GenerateTraceLoads flags.sampleSize 3 0 true flags.rps
          (runTraceMode w flags hist).functions [m₀, m₁, m₂] [t₀, t₁, t₂]]) := by
  obtain ⟨ht, -, hs, hl⟩ := runTraceMode_off w flags hist hw
  obtain ⟨t₀, t₁, p₀, p₁, p₂, hp⟩ := parseTraces_log w flags hist
  have hf : (runTraceMode w flags hist).log.filter Event.isDispatch =
      [Event.GenerateTraceLoads flags.sampleSize 3 0 true flags.rps
        (runTraceMode w flags hist).functions
        (runTraceMode w flags hist).traces.InvocationsEachMinute
        (runTraceMode w flags hist).traces.TotalInvocationsPerMinute] := by
    rw [hl, hp, ht]
    by_cases hd : flags.duration = 0 <;> simp [hd, List.filter_cons]
  refine ⟨?_, hs, hf, ?_, ?_⟩
  · rw [hl, hp]
    by_cases hd : flags.duration = 0 <;> simp [hd, List.filter_cons]
  · rw [hl, ht]
    exact List.getLast?_concat _
  · intro _ m₀ m₁ m₂ u₀ u₁ u₂ hi hu
    rw [hf, hi, hu]

/-- C1 at the default flags (duration 3, warmup disabled) on a three-minute
trace: minutes 0, 1, 2 are dispatched. -/
theorem C1_no_warmup_dispatches_whole_trace_witness :
    defaultFlags.withWarmup = false ∧
    (runTraceMode (sampleWorld (sampleTrace 3) 0) defaultFlags []).log.filter Event.isDispatch =
      [Event.GenerateTraceLoads 10 3 0 true (-900000)
        (runTraceMode (sampleWorld (sampleTrace 3) 0) defaultFlags []).functions
        [[0, 10], [1, 11], [2, 12]] [10, 12, 14]] :=
  ⟨rfl, (C1_no_warmup_dispatches_whole_trace (sampleWorld (sampleTrace 3) 0) defaultFlags []
    rfl).2.2.1⟩

/-- C2, as stated, fails: duration 3, a trace of 4 minutes (length at least the
duration) and a warmup that returns exit minute 1.  The dispatcher is started at
minute 1 with the three remaining minutes 1, 2, 3 of the trace, not with
minutes 1, 2 (which would be `duration - k = 2` entries). -/
theorem C2_counterexample :
    (3 : Int) ≤ ((runTraceMode (sampleWorld (sampleTrace 4) 1)
      { defaultFlags with withWarmup := true } []).traces.InvocationsEachMinute.length : Int) ∧
    (3 : Int) ≤ ((runTraceMode (sampleWorld (sampleTrace 4) 1)
      { defaultFlags with withWarmup := true } []).traces.TotalInvocationsPerMinute.length : Int) ∧
    (runTraceMode (sampleWorld (sampleTrace 4) 1)
      { defaultFlags with withWarmup := true } []).nextPhaseStart = 1 ∧
    (runTraceMode (sampleWorld (sampleTrace 4) 1)
      { defaultFlags with withWarmup := true } []).log.filter Event.isDispatch =
      [Event.GenerateTraceLoads 10 3 1 true (-900000)
        (runTraceMode (sampleWorld (sampleTrace 4) 1)
          { defaultFlags with withWarmup := true } []).functions
        [[1, 11], [2, 12], [3, 13]] [12, 14, 16]] ∧
    ((runTraceMode (sampleWorld (sampleTrace 4) 1)
      { defaultFlags with withWarmup := true } []).traces.InvocationsEachMinute.drop 1).take
        (3 - 1) = [[1, 11], [2, 12]] ∧
    ([[1, 11], [2, 12], [3, 13]] : List (List Int)).length ≠ 3 - 1 := by
  decide

/-- C2, amended: for every trace whose per-minute sequences have length at least
the duration and every exit minute `k` with `0 ≤ k ≤ duration` held by
`nextPhaseStart` (the value returned by the warmup when it is enabled),
`runTraceMode` does not panic and calls the measurement dispatcher exactly once,
with `startMinute = k` and with the two sequences from index `k` to their end:
entry `i` of a passed sequence is minute `k + i` of the trace, and a sequence
of length `L` yields `L - k` entries.  Minutes `k, ..., duration - 1` are the
first `duration - k` of them, and all of them when `L = duration`. -/
theorem C2_measurement_gets_suffix_from_exit_minute {Stats : Type} (w : World Stats)
    (flags : Flags) (hist : List (Event Stats))
    (hinv : flags.duration ≤
      ((runTraceMode w flags hist).traces.InvocationsEachMinute.length : Int))
    (htot : flags.duration ≤
      ((runTraceMode w flags hist).traces.TotalInvocationsPerMinute.length : Int))
    (h₀ : 0 ≤ (runTraceMode w flags hist).nextPhaseStart)
    (hk : (runTraceMode w flags hist).nextPhaseStart ≤ flags.duration) :
    (runTraceMode w flags hist).status = Status.returned ∧
    (runTraceMode w flags hist).log.filter Event.isDispatch =
      [Event.GenerateTraceLoads flags.sampleSize 3 (runTraceMode w flags hist).nextPhaseStart
        true flags.rps (runTraceMode w flags hist).functions
        ((runTraceMode w flags hist).traces.InvocationsEachMinute.drop
          (runTraceMode w flags hist).nextPhaseStart.toNat)
        ((runTraceMode w flags hist).traces.TotalInvocationsPerMinute.drop
          (runTraceMode w flags hist).nextPhaseStart.toNat)] ∧
    (∀ i : Nat,
      ((runTraceMode w flags hist).traces.InvocationsEachMinute.drop
          (runTraceMode w flags hist).nextPhaseStart.toNat)[i]? =
        (runTraceMode w flags hist).traces.InvocationsEachMinute[
          (runTraceMode w flags hist).nextPhaseStart.toNat + i]? ∧
      ((runTraceMode w flags hist).traces.TotalInvocationsPerMinute.drop
          (runTraceMode w flags hist).nextPhaseStart.toNat)[i]? =
        (runTraceMode w flags hist).traces.TotalInvocationsPerMinute[
          (runTraceMode w flags hist).nextPhaseStart.toNat + i]?) ∧
    ((((runTraceMode w flags hist).traces.InvocationsEachMinute.drop
        (runTraceMode w flags hist).nextPhaseStart.toNat).length : Int) =
      ((runTraceMode w flags hist).traces.InvocationsEachMinute.length : Int) -
        (runTraceMode w flags hist).nextPhaseStart) ∧
    ((((runTraceMode w flags hist).traces.TotalInvocationsPerMinute.drop
        (runTraceMode w flags hist).nextPhaseStart.toNat).length : Int) =
      ((runTraceMode w flags hist).traces.TotalInvocationsPerMinute.length : Int) -
        (runTraceMode w flags hist).nextPhaseStart) ∧
    (flags.duration - (runTraceMode w flags hist).nextPhaseStart ≤
      (((runTraceMode w flags hist).traces.InvocationsEachMinute.drop
        (runTraceMode w flags hist).nextPhaseStart.toNat).length : Int)) ∧
    (flags.duration - (runTraceMode w flags hist).nextPhaseStart ≤
      (((runTraceMode w flags hist).traces.TotalInvocationsPerMinute.drop
        (runTraceMode w flags hist).nextPhaseStart.toNat).length : Int)) := by
  obtain ⟨hs, hf⟩ := runTraceMode_dispatch w flags hist h₀ (le_trans hk hinv) (le_trans hk htot)
  refine ⟨hs, hf, ?_, ?_, ?_, ?_, ?_⟩
  · intro i
    simp [List.getElem?_drop]
  · rw [List.length_drop]; omega
  · rw [List.length_drop]; omega
  · rw [List.length_drop]; omega
  · rw [List.length_drop]; omega

/-- C2, amended, at duration 10 with a ten-minute trace and exit minute 2: the
dispatcher is started at minute 2 and receives the `10 - 2 = 8` minutes
2, ..., 9. -/
theorem C2_measurement_gets_suffix_from_exit_minute_witness :
    (runTraceMode (sampleWorld (sampleTrace 10) 2)
      { defaultFlags with duration := 10, withWarmup := true } []).status = Status.returned ∧
    (runTraceMode (sampleWorld (sampleTrace 10) 2)
      { defaultFlags with duration := 10, withWarmup := true } []).log.filter Event.isDispatch =
      [Event.GenerateTraceLoads 10 3 2 true (-900000)
        (runTraceMode (sampleWorld (sampleTrace 10) 2)
          { defaultFlags with duration := 10, withWarmup := true } []).functions
        [[2, 12], [3, 13], [4, 14], [5, 15], [6, 16], [7, 17], [8, 18], [9, 19]]
        [14, 16, 18, 20, 22, 24, 26, 28]] :=
  ⟨(C2_measurement_gets_suffix_from_exit_minute (sampleWorld (sampleTrace 10) 2)
      { defaultFlags with duration := 10, withWarmup := true } []
      (by decide) (by decide) (by decide) (by decide)).1,
    (C2_measurement_gets_suffix_from_exit_minute (sampleWorld (sampleTrace 10) 2)
      { defaultFlags with duration := 10, withWarmup := true } []
      (by decide) (by decide) (by decide) (by decide)).2.1⟩

/-- C3, as stated, fails: duration 6, warmup enabled, a six-minute trace and a
warmup that never succeeded and returns the budget `floor(6/2) + 1 = 4`.  The
dispatcher is started at minute 4 on minutes 4 and 5, but `DumpOverloadFlag` is
not called: line 118 compares the exit minute with the duration 6. -/
theorem C3_counterexample :
    ({ defaultFlags with duration := 6, withWarmup := true } : Flags).withWarmup = true ∧
    (runTraceMode (sampleWorld (sampleTrace 6) 4)
      { defaultFlags with duration := 6, withWarmup := true } []).nextPhaseStart =
      Int.fdiv 6 2 + 1 ∧
    (runTraceMode (sampleWorld (sampleTrace 6) 4)
      { defaultFlags with duration := 6, withWarmup := true } []).log.filter Event.isOverload =
      [] ∧
    Event.DumpOverloadFlag ∉ (runTraceMode (sampleWorld (sampleTrace 6) 4)
      { defaultFlags with duration := 6, withWarmup := true } []).log ∧
    (runTraceMode (sampleWorld (sampleTrace 6) 4)
      { defaultFlags with duration := 6, withWarmup := true } []).log.filter Event.isDispatch =
      [Event.GenerateTraceLoads 10 3 4 true (-900000)
        (runTraceMode (sampleWorld (sampleTrace 6) 4)
          { defaultFlags with duration := 6, withWarmup := true } []).functions
        [[4, 14], [5, 15]] [18, 20]] := by
  decide

/-- C3, amended: with warmup enabled (the warmup governor is called once and
`nextPhaseStart` is the value it returns), for every duration, if the warmup
returns the exit minute `floor(duration/2) + 1`, then `DumpOverloadFlag` is called
exactly when that exit minute equals the duration, which happens for the
durations 1 and 2 only (then once), and for no other duration; and whenever the
exit minute is within both per-minute sequences, the run does not panic and the
measurement dispatcher is started, once, at that minute on the rest of the
trace. -/
theorem C3_budget_exit_overload_only_at_duration {Stats : Type} (w : World Stats)
    (flags : Flags) (hist : List (Event Stats)) (hw : flags.withWarmup = true)
    (hk : (runTraceMode w flags hist).nextPhaseStart = Int.fdiv flags.duration 2 + 1) :
    (runTraceMode w flags hist).log.filter Event.isWarmup =
      [Event.Warmup flags.sampleSize 3 flags.rps (runTraceMode w flags hist).functions
        (runTraceMode w flags hist).traces] ∧
    (runTraceMode w flags hist).nextPhaseStart =
      w.Warmup (hist ++ ((profiling w flags hist (parseTraces w flags hist)).2 ++
          [Event.DeployTrace (runTraceMode w flags hist).traces.Functions serviceConfigPath
            (runTraceMode w flags hist).traces.WarmupScales]))
        flags.sampleSize 3 flags.rps (runTraceMode w flags hist).functions
        (runTraceMode w flags hist).traces ∧
    (runTraceMode w flags hist).log.filter Event.isOverload =
      (if flags.duration = 1 ∨ flags.duration = 2 then [Event.DumpOverloadFlag] else []) ∧
    (Event.DumpOverloadFlag ∈ (runTraceMode w flags hist).log ↔
      (flags.duration = 1 ∨ flags.duration = 2)) ∧
    (0 ≤ (runTraceMode w flags hist).nextPhaseStart →
      (runTraceMode w flags hist).nextPhaseStart ≤
        ((runTraceMode w flags hist).traces.InvocationsEachMinute.length : Int) →
      (runTraceMode w flags hist).nextPhaseStart ≤
        ((runTraceMode w flags hist).traces.TotalInvocationsPerMinute.length : Int) →
      (runTraceMode w flags hist).status = Status.returned ∧
      (runTraceMode w flags hist).log.filter Event.isDispatch =
        [Event.GenerateTraceLoads flags.sampleSize 3 (Int.fdiv flags.duration 2 + 1)
          true flags.rps (runTraceMode w flags hist).functions
          ((runTraceMode w flags hist).traces.InvocationsEachMinute.drop
            (Int.fdiv flags.duration 2 + 1).toNat)
          ((runTraceMode w flags hist).traces.TotalInvocationsPerMinute.drop
            (Int.fdiv flags.duration 2 + 1).toNat)]) := by
  have hiff : (runTraceMode w flags hist).nextPhaseStart = flags.duration ↔
      (flags.duration = 1 ∨ flags.duration = 2) := by
    rw [hk, fdiv_two]; omega
  have ho := runTraceMode_overload w flags hist
  have hfilter : (runTraceMode w flags hist).log.filter Event.isOverload =
      (if flags.duration = 1 ∨ flags.duration = 2 then [Event.DumpOverloadFlag] else []) := by
    rw [ho]
    by_cases h : flags.duration = 1 ∨ flags.duration = 2
    · rw [if_pos h, if_pos (hiff.2 h)]
    · rw [if_neg h, if_neg (fun h2 => h (hiff.1 h2))]
  refine ⟨(runTraceMode_warmup w flags hist hw).1, (runTraceMode_warmup w flags hist hw).2,
    hfilter, ?_, ?_⟩
  · have hmem : Event.DumpOverloadFlag ∈ (runTraceMode w flags hist).log ↔
        Event.DumpOverloadFlag ∈ (runTraceMode w flags hist).log.filter Event.isOverload := by
      simp [List.mem_filter]
    rw [hmem, hfilter]
    by_cases h : flags.duration = 1 ∨ flags.duration = 2 <;> simp [h]
  · intro h₀ h₁ h₂
    have := runTraceMode_dispatch w flags hist h₀ h₁ h₂
    rw [hk] at this
    exact this

/-- C3, amended, at duration 2 with a two-minute trace: the warmup returns the
budget `floor(2/2) + 1 = 2`, which is the duration, and the overload flag is
raised. -/
theorem C3_budget_exit_overload_only_at_duration_witness :
    ({ defaultFlags with duration := 2, withWarmup := true } : Flags).withWarmup = true ∧
    (runTraceMode (sampleWorld (sampleTrace 2) 2)
      { defaultFlags with duration := 2, withWarmup := true } []).nextPhaseStart =
      Int.fdiv 2 2 + 1 ∧
    (runTraceMode (sampleWorld (sampleTrace 2) 2)
      { defaultFlags with duration := 2, withWarmup := true } []).log.filter Event.isOverload =
      [Event.DumpOverloadFlag] :=
  ⟨rfl, by decide,
    (C3_budget_exit_overload_only_at_duration (sampleWorld (sampleTrace 2) 2)
      { defaultFlags with duration := 2, withWarmup := true } [] rfl (by decide)).2.2.1⟩

/-- C4, as stated, fails at duration 0: with warmup enabled and a warmup that
returns exit minute 0, which is below the budget `floor(0/2) + 1 = 1`,
`DumpOverloadFlag` is called, because the exit minute equals the duration. -/
theorem C4_counterexample :
    ({ defaultFlags with duration := 0, withWarmup := true } : Flags).withWarmup = true ∧
    (0 : Int) ≤ ({ defaultFlags with duration := 0, withWarmup := true } : Flags).duration ∧
    (runTraceMode (sampleWorld (sampleTrace 0) 0)
      { defaultFlags with duration := 0, withWarmup := true } []).nextPhaseStart = 0 ∧
    (0 : Int) < Int.fdiv 0 2 + 1 ∧
    (runTraceMode (sampleWorld (sampleTrace 0) 0)
      { defaultFlags with duration := 0, withWarmup := true } []).log.filter Event.isOverload =
      [Event.DumpOverloadFlag] ∧
    Event.DumpOverloadFlag ∈ (runTraceMode (sampleWorld (sampleTrace 0) 0)
      { defaultFlags with duration := 0, withWarmup := true } []).log := by
  decide

/-- C4, amended: with warmup enabled (the warmup governor is called once and
`nextPhaseStart` is the value it returns), for every duration of at least 1 and
every exit minute `k` with `0 ≤ k < floor(duration/2) + 1` returned by the warmup,
`DumpOverloadFlag` is not called, and, on a trace whose per-minute sequences
have length at least the duration, the run does not panic and measurement is
started, once, at minute `k`. -/
theorem C4_early_exit_leaves_overload_unset {Stats : Type} (w : World Stats)
    (flags : Flags) (hist : List (Event Stats)) (hw : flags.withWarmup = true)
    (hd : 1 ≤ flags.duration)
    (h₀ : 0 ≤ (runTraceMode w flags hist).nextPhaseStart)
    (hk : (runTraceMode w flags hist).nextPhaseStart < Int.fdiv flags.duration 2 + 1) :
    (runTraceMode w flags hist).log.filter Event.isWarmup =
      [Event.Warmup flags.sampleSize 3 flags.rps (runTraceMode w flags hist).functions
        (runTraceMode w flags hist).traces] ∧
    (runTraceMode w flags hist).nextPhaseStart =
      w.Warmup (hist ++ ((profiling w flags hist (parseTraces w flags hist)).2 ++
          [Event.DeployTrace (runTraceMode w flags hist).traces.Functions serviceConfigPath
            (runTraceMode w flags hist).traces.WarmupScales]))
        flags.sampleSize 3 flags.rps (runTraceMode w flags hist).functions
        (runTraceMode w flags hist).traces ∧
    (runTraceMode w flags hist).log.filter Event.isOverload = [] ∧
    Event.DumpOverloadFlag ∉ (runTraceMode w flags hist).log ∧
    (flags.duration ≤ ((runTraceMode w flags hist).traces.InvocationsEachMinute.length : Int) →
      flags.duration ≤
        ((runTraceMode w flags hist).traces.TotalInvocationsPerMinute.length : Int) →
      (runTraceMode w flags hist).status = Status.returned ∧
      (runTraceMode w flags hist).log.filter Event.isDispatch =
        [Event.GenerateTraceLoads flags.sampleSize 3 (runTraceMode w flags hist).nextPhaseStart
          true flags.rps (runTraceMode w flags hist).functions
          ((runTraceMode w flags hist).traces.InvocationsEachMinute.drop
            (runTraceMode w flags hist).nextPhaseStart.toNat)
          ((runTraceMode w flags hist).traces.TotalInvocationsPerMinute.drop
            (runTraceMode w flags hist).nextPhaseStart.toNat)]) := by
  rw [fdiv_two] at hk
  have hne : (runTraceMode w flags hist).nextPhaseStart ≠ flags.duration := by omega
  have hfilter : (runTraceMode w flags hist).log.filter Event.isOverload = [] := by
    rw [runTraceMode_overload, if_neg hne]
  refine ⟨(runTraceMode_warmup w flags hist hw).1, (runTraceMode_warmup w flags hist hw).2,
    hfilter, ?_, ?_⟩
  · intro hmem
    have : Event.DumpOverloadFlag ∈ (runTraceMode w flags hist).log.filter Event.isOverload := by
      simp [List.mem_filter, hmem]
    rw [hfilter] at this
    exact absurd this (List.not_mem_nil _)
  · intro hinv htot
    exact runTraceMode_dispatch w flags hist h₀ (by omega) (by omega)

/-- C4, amended, at duration 10 with a ten-minute trace and exit minute 2, below
the budget 6: the overload flag stays unset. -/
theorem C4_early_exit_leaves_overload_unset_witness :
    ({ defaultFlags with duration := 10, withWarmup := true } : Flags).withWarmup = true ∧
    (runTraceMode (sampleWorld (sampleTrace 10) 2)
      { defaultFlags with duration := 10, withWarmup := true } []).nextPhaseStart <
      Int.fdiv 10 2 + 1 ∧
    (runTraceMode (sampleWorld (sampleTrace 10) 2)
      { defaultFlags with duration := 10, withWarmup := true } []).log.filter Event.isOverload =
      [] :=
  ⟨rfl, by decide,
    (C4_early_exit_leaves_overload_unset (sampleWorld (sampleTrace 10) 2)
      { defaultFlags with duration := 10, withWarmup := true } [] rfl (by decide) (by decide)
      (by decide)).2.2.1⟩

/-- C5: for every duration `≥ 0`, the budget `profilingMinutes` computed by
`runTraceMode` (the Go integer expression `duration/2 + 1`) equals
`floor(duration/2) + 1`, and with warmup enabled the profiler is called for
every parsed function with exactly this value as its profiling duration; the
value is 4 for duration 6 and 2 for the default duration 3. -/
theorem C5_profilingMinutes_is_floor_half_plus_one {Stats : Type} (w : World Stats)
    (flags : Flags) (hist : List (Event Stats)) (hd : 0 ≤ flags.duration) :
    profilingMinutes flags.duration = Int.fdiv flags.duration 2 + 1 ∧
    profilingMinutes flags.duration = ⌊(flags.duration : ℚ) / 2⌋ + 1 ∧
    (flags.withWarmup = true →
      (runTraceMode w flags hist).log.filter Event.isProfile =
        (parseTraces w flags hist).1.Functions.map
          (fun f => Event.ProfileFunctionConcurrencies f (Int.fdiv flags.duration 2 + 1))) ∧
    (∀ f m, Event.ProfileFunctionConcurrencies f m ∈ (runTraceMode w flags hist).log →
      m = Int.fdiv flags.duration 2 + 1) ∧
    profilingMinutes 6 = 4 ∧
    profilingMinutes defaultFlags.duration = 2 := by
  have h₁ : profilingMinutes flags.duration = Int.fdiv flags.duration 2 + 1 := by
    rw [profilingMinutes_of_nonneg _ hd, fdiv_two]
  have hcalls := runTraceMode_profile_calls w flags hist
  refine ⟨h₁, ?_, ?_, ?_, by decide, by decide⟩
  · rw [profilingMinutes_of_nonneg _ hd]
    have := Rat.floor_intCast_div_natCast flags.duration 2
    simp only [Nat.cast_ofNat] at this
    rw [this]
  · intro hw
    rw [hcalls, if_pos hw, h₁]
  · intro f m hmem
    have hmem2 : Event.ProfileFunctionConcurrencies f m ∈
        (runTraceMode w flags hist).log.filter Event.isProfile := by
      simp [List.mem_filter, hmem]
    rw [hcalls] at hmem2
    by_cases hw : flags.withWarmup = true
    · rw [if_pos hw, List.mem_map] at hmem2
      obtain ⟨g, -, hg⟩ := hmem2
      injection hg with _ hm
      rw [← hm, h₁]
    · rw [if_neg hw] at hmem2
      exact absurd hmem2 (List.not_mem_nil _)

/-- C5 at duration 6 with warmup enabled: both functions of the trace are
profiled for 4 minutes. -/
theorem C5_profilingMinutes_is_floor_half_plus_one_witness :
    (0 : Int) ≤ ({ defaultFlags with duration := 6, withWarmup := true } : Flags).duration ∧
    profilingMinutes 6 = Int.fdiv 6 2 + 1 ∧
    (runTraceMode (sampleWorld (sampleTrace 6) 4)
      { defaultFlags with duration := 6, withWarmup := true } []).log.filter Event.isProfile =
      [Event.ProfileFunctionConcurrencies { Name := "f0", Endpoint := "e0", ConcurrencySats := 0 } 4,
        Event.ProfileFunctionConcurrencies
          { Name := "f1", Endpoint := "e1", ConcurrencySats := 0 } 4] :=
  ⟨by decide,
    (C5_profilingMinutes_is_floor_half_plus_one (sampleWorld (sampleTrace 6) 4)
      { defaultFlags with duration := 6, withWarmup := true } [] (by decide)).1,
    (C5_profilingMinutes_is_floor_half_plus_one (sampleWorld (sampleTrace 6) 4)
      { defaultFlags with duration := 6, withWarmup := true } [] (by decide)).2.2.1 rfl⟩

/-- C6: in a trace-mode run with warmup enabled the calls are, in this order:
the three parser calls; one profiler call per function of the parsed trace, in
index order; one scale computation on `(cluster, functions)`, with the
functions as profiled; the deploy call; the warmup call; then the overload
call, if made, and the measurement dispatch, if the run does not panic.  The
result of the profiler call for function `i` (answered on the history up to
that call) is stored in `ConcurrencySats` of function `i`, and the computed
scales are stored in `WarmupScales`.  With warmup disabled there is no
profiler call and no scale computation, and deployment receives the functions
and `WarmupScales` as the parser left them. -/
theorem C6_profiling_precedes_deploy_warmup_dispatch {Stats : Type} (w : World Stats)
    (flags : Flags) (hist : List (Event Stats)) :
    (flags.withWarmup = true →
      (∃ t₀ t₁ p₀ p₁ p₂,
        (parseTraces w flags hist).2 =
          [Event.ParseInvocationTrace p₀ flags.duration, Event.ParseDurationTrace t₀ p₁,
            Event.ParseMemoryTrace t₁ p₂]) ∧
      (runTraceMode w flags hist).log =
        (parseTraces w flags hist).2 ++
          (parseTraces w flags hist).1.Functions.map
            (fun f => Event.ProfileFunctionConcurrencies f (profilingMinutes flags.duration)) ++
          [Event.ComputeFunctionsWarmupScales flags.cluster
              (runTraceMode w flags hist).traces.Functions,
            Event.DeployTrace (runTraceMode w flags hist).traces.Functions serviceConfigPath
              (runTraceMode w flags hist).traces.WarmupScales,
            Event.Warmup flags.sampleSize 3 flags.rps (runTraceMode w flags hist).functions
              (runTraceMode w flags hist).traces] ++
          (if (runTraceMode w flags hist).nextPhaseStart = flags.duration then
            [Event.DumpOverloadFlag] else []) ++
          (if (runTraceMode w flags hist).status = Status.returned then
            [Event.GenerateTraceLoads flags.sampleSize 3
              (runTraceMode w flags hist).nextPhaseStart true flags.rps
              (runTraceMode w flags hist).functions
              ((runTraceMode w flags hist).traces.InvocationsEachMinute.drop
                (runTraceMode w flags hist).nextPhaseStart.toNat)
              ((runTraceMode w flags hist).traces.TotalInvocationsPerMinute.drop
                (runTraceMode w flags hist).nextPhaseStart.toNat)]
           else []) ∧
      (∀ i : Nat, (runTraceMode w flags hist).traces.Functions[i]? =
        ((parseTraces w flags hist).1.Functions[i]?).map (fun f =>
          { f with
            ConcurrencySats := w.ProfileFunctionConcurrencies
              (hist ++ (parseTraces w flags hist).2 ++
                ((parseTraces w flags hist).1.Functions.take i).map
                  (fun g => Event.ProfileFunctionConcurrencies g
                    (profilingMinutes flags.duration)))
              f (profilingMinutes flags.duration) })) ∧
      (runTraceMode w flags hist).traces.WarmupScales =
        w.ComputeFunctionsWarmupScales
          (hist ++ ((parseTraces w flags hist).2 ++ (parseTraces w flags hist).1.Functions.map
            (fun f => Event.ProfileFunctionConcurrencies f (profilingMinutes flags.duration))))
          flags.cluster (runTraceMode w flags hist).traces.Functions) ∧
    (flags.withWarmup = false →
      (runTraceMode w flags hist).log.filter Event.isProfile = [] ∧
      (runTraceMode w flags hist).log.filter Event.isScale = [] ∧
      (runTraceMode w flags hist).log.filter Event.isDeploy =
        [Event.DeployTrace (parseTraces w flags hist).1.Functions serviceConfigPath
          (parseTraces w flags hist).1.WarmupScales] ∧
      (runTraceMode w flags hist).traces = (parseTraces w flags hist).1) := by
  obtain ⟨t₀, t₁, p₀, p₁, p₂, hp⟩ := parseTraces_log w flags hist
  constructor
  · intro hw
    obtain ⟨ht, hl⟩ := runTraceMode_on w flags hist hw
    refine ⟨⟨t₀, t₁, p₀, p₁, p₂, hp⟩, hl, ?_, ?_⟩
    · intro i
      rw [ht]
      simp only []
      rw [profiled_getElem?]
    · rw [ht]
  · intro hw
    obtain ⟨ht, -, -, hl⟩ := runTraceMode_off w flags hist hw
    refine ⟨?_, ?_, ?_, ht⟩
    · rw [runTraceMode_profile_calls]; simp [hw]
    · rw [hl, hp]
      by_cases hd : flags.duration = 0 <;> simp [hd, List.filter_cons]
    · rw [hl, hp]
      by_cases hd : flags.duration = 0 <;> simp [hd, List.filter_cons]

/-- C6 on a two-function trace, duration 6, warmup enabled and exit minute 4:
the complete call record.  The profiler of the sample world reports the number
of earlier calls, 3 and 4, which are the values stored in the two functions. -/
theorem C6_profiling_precedes_deploy_warmup_dispatch_witness :
    ({ defaultFlags with duration := 6, withWarmup := true } : Flags).withWarmup = true ∧
    (runTraceMode (sampleWorld (sampleTrace 6) 4)
      { defaultFlags with duration := 6, withWarmup := true } []).log =
      [Event.ParseInvocationTrace "data/traces/10_inv.csv" 6,
        Event.ParseDurationTrace (sampleTrace 6) "data/traces/10_run.csv",
        Event.ParseMemoryTrace (sampleTrace 6) "data/traces/10_mem.csv",
        Event.ProfileFunctionConcurrencies
          { Name := "f0", Endpoint := "e0", ConcurrencySats := 0 } 4,
        Event.ProfileFunctionConcurrencies
          { Name := "f1", Endpoint := "e1", ConcurrencySats := 0 } 4,
        Event.ComputeFunctionsWarmupScales 1
          [{ Name := "f0", Endpoint := "e0", ConcurrencySats := 3 },
            { Name := "f1", Endpoint := "e1", ConcurrencySats := 4 }],
        Event.DeployTrace
          [{ Name := "f0", Endpoint := "e0", ConcurrencySats := 3 },
            { Name := "f1", Endpoint := "e1", ConcurrencySats := 4 }]
          "workloads/trace_func_go.yaml" [1, 1],
        Event.Warmup 10 3 (-900000)
          [{ Name := "f0", Endpoint := "e0", ConcurrencySats := 3 },
            { Name := "f1", Endpoint := "e1", ConcurrencySats := 4 }]
          { sampleTrace 6 with
            Functions := [{ Name := "f0", Endpoint := "e0", ConcurrencySats := 3 },
              { Name := "f1", Endpoint := "e1", ConcurrencySats := 4 }]
            WarmupScales := [1, 1] },
        Event.GenerateTraceLoads 10 3 4 true (-900000)
          [{ Name := "f0", Endpoint := "e0", ConcurrencySats := 3 },
            { Name := "f1", Endpoint := "e1", ConcurrencySats := 4 }]
          [[4, 14], [5, 15]] [18, 20]] :=
  ⟨rfl,
    ((C6_profiling_precedes_deploy_warmup_dispatch (sampleWorld (sampleTrace 6) 4)
      { defaultFlags with duration := 6, withWarmup := true } []).1 rfl).2.1.trans
      (by decide)⟩

/-- C7: the mode selects exactly one driver.  Mode `"trace"`: after seeding,
`main` makes exactly the calls of `runTraceMode`, none of which is a stress
call or a fatal error.  Mode `"stress"`: after seeding, `main` looks up the
function endpoint of `"stress-func"`, deploys the single function named
`"stress-func"` with scale 0 and calls the stress ramp driver once, with the configured
`(rpsStart, rpsStep, rpsSlot)` unchanged; no call of the trace pipeline
(parsing, profiling, scaling, deployment of a trace, warmup, dispatch) is made.
Every other mode: after seeding, the fatal error `Invalid mode: <mode>` is
reported and no call of either pipeline is made. -/
theorem C7_mode_selects_one_driver {Stats : Type} [Inhabited Stats] (w : World Stats)
    (flags : Flags) :
    (flags.mode = "trace" →
      (main w flags).log =
        Event.InitSeed flags.seed :: (runTraceMode w flags [Event.InitSeed flags.seed]).log ∧
      (main w flags).status = (runTraceMode w flags [Event.InitSeed flags.seed]).status ∧
      (main w flags).log.filter Event.isStress = [] ∧
      (∀ msg, Event.Fatal msg ∉ (main w flags).log)) ∧
    (flags.mode = "stress" →
      (main w flags).log =
        [Event.InitSeed flags.seed,
          Event.GetFuncEndpoint "stress-func",
          Event.DeployFunction
            { Name := "stress-func"
              Endpoint := w.GetFuncEndpoint [Event.InitSeed flags.seed] "stress-func"
              ConcurrencySats := default }
            serviceConfigPath 0,
          Event.GenerateStressLoads flags.rpsStart flags.rpsStep flags.rpsSlot
            (w.DeployFunction [Event.InitSeed flags.seed, Event.GetFuncEndpoint "stress-func"]
              { Name := "stress-func"
                Endpoint := w.GetFuncEndpoint [Event.InitSeed flags.seed] "stress-func"
                ConcurrencySats := default }
              serviceConfigPath 0)] ∧
      (main w flags).status = Status.returned ∧
      (main w flags).log.filter Event.isTrace = []) ∧
    (flags.mode ≠ "trace" → flags.mode ≠ "stress" →
      (main w flags).log =
        [Event.InitSeed flags.seed, Event.Fatal ("Invalid mode: " ++ flags.mode)] ∧
      (main w flags).status = Status.fatal ∧
      (main w flags).log.filter Event.isTrace = [] ∧
      (main w flags).log.filter Event.isStress = []) := by
  refine ⟨?_, ?_, ?_⟩
  · intro hm
    have hl : (main w flags).log =
        Event.InitSeed flags.seed :: (runTraceMode w flags [Event.InitSeed flags.seed]).log := by
      simp [main, hm]
    refine ⟨hl, by simp [main, hm], ?_, ?_⟩
    · rw [hl, List.filter_cons]
      simp only [Event.isStress, Bool.false_eq_true, if_false]
      exact List.filter_eq_nil_iff.2 (fun e he => by
        rw [(isTrace_exclusive e (runTraceMode_isTrace w flags _ e he)).1]
        exact Bool.false_ne_true)
    · intro msg hmem
      rw [hl] at hmem
      rcases List.mem_cons.1 hmem with h | h
      · exact absurd h (by simp)
      · exact (isTrace_exclusive _ (runTraceMode_isTrace w flags _ _ h)).2 msg rfl
  · intro hm
    refine ⟨?_, ?_, ?_⟩ <;> simp [main, hm, runStressMode, Event.isTrace]
  · intro h₁ h₂
    refine ⟨?_, ?_, ?_, ?_⟩ <;> simp [main, h₁, h₂, Event.isTrace]

/-- C7 in stress mode with `rpsStart = 0`, `rpsStep = 50`, `rpsSlot = 1`: the
stress ramp driver is called once, with `(0, 50, 1)`. -/
theorem C7_mode_selects_one_driver_witness :
    ({ defaultFlags with mode := "stress", rpsStep := 50 } : Flags).mode = "stress" ∧
    (main (sampleWorld (sampleTrace 3) 0)
      { defaultFlags with mode := "stress", rpsStep := 50 }).log =
      [Event.InitSeed 42,
        Event.GetFuncEndpoint "stress-func",
        Event.DeployFunction
          { Name := "stress-func", Endpoint := "stress-func", ConcurrencySats := 0 }
          "workloads/trace_func_go.yaml" 0,
        Event.GenerateStressLoads 0 50 1
          { Name := "stress-func", Endpoint := "stress-func", ConcurrencySats := 0 }] :=
  ⟨rfl,
    ((C7_mode_selects_one_driver (sampleWorld (sampleTrace 3) 0)
      { defaultFlags with mode := "stress", rpsStep := 50 }).2.1 rfl).1⟩

/-- C8: for every duration `≥ 1` the budget `duration/2 + 1` is at most the
duration; hence, on every trace whose per-minute sequences have length at least
the duration, for every exit minute `k` with `0 ≤ k ≤ duration/2 + 1` the two
slice expressions are in bounds and `runTraceMode` does not panic.  For
duration 0 the budget is 1 and exceeds the duration, and the panic is reached
with exit minute 1 on an empty trace. -/
theorem C8_slices_in_bounds_within_budget {Stats : Type} (w : World Stats) (flags : Flags)
    (hist : List (Event Stats)) :
    (∀ d : Int, 1 ≤ d → profilingMinutes d ≤ d) ∧
    (1 ≤ flags.duration →
      flags.duration ≤ ((runTraceMode w flags hist).traces.InvocationsEachMinute.length : Int) →
      flags.duration ≤
        ((runTraceMode w flags hist).traces.TotalInvocationsPerMinute.length : Int) →
      0 ≤ (runTraceMode w flags hist).nextPhaseStart →
      (runTraceMode w flags hist).nextPhaseStart ≤ profilingMinutes flags.duration →
      sliceFrom (runTraceMode w flags hist).traces.InvocationsEachMinute
          (runTraceMode w flags hist).nextPhaseStart =
        some ((runTraceMode w flags hist).traces.InvocationsEachMinute.drop
          (runTraceMode w flags hist).nextPhaseStart.toNat) ∧
      sliceFrom (runTraceMode w flags hist).traces.TotalInvocationsPerMinute
          (runTraceMode w flags hist).nextPhaseStart =
        some ((runTraceMode w flags hist).traces.TotalInvocationsPerMinute.drop
          (runTraceMode w flags hist).nextPhaseStart.toNat) ∧
      (runTraceMode w flags hist).status = Status.returned) ∧
    (profilingMinutes 0 = 1 ∧ ¬ profilingMinutes 0 ≤ 0) ∧
    ((0 : Int) ≤ ((sampleTrace 0).InvocationsEachMinute.length : Int) ∧
      (runTraceMode (sampleWorld (sampleTrace 0) 1)
        { defaultFlags with duration := 0, withWarmup := true } []).nextPhaseStart =
        profilingMinutes 0 ∧
      (runTraceMode (sampleWorld (sampleTrace 0) 1)
        { defaultFlags with duration := 0, withWarmup := true } []).status =
        Status.panicked) := by
  have hb : ∀ d : Int, 1 ≤ d → profilingMinutes d ≤ d := by
    intro d hd
    rw [profilingMinutes_of_nonneg d (by omega)]
    omega
  refine ⟨hb, ?_, by decide, by decide⟩
  intro hd hinv htot h₀ hk
  have hle := hb flags.duration hd
  exact ⟨sliceFrom_eq_some _ _ h₀ (by omega), sliceFrom_eq_some _ _ h₀ (by omega),
    (runTraceMode_dispatch w flags hist h₀ (by omega) (by omega)).1⟩

/-- C8 at duration 2 with a two-minute trace and exit minute 2, the budget: the
run does not panic. -/
theorem C8_slices_in_bounds_within_budget_witness :
    (1 : Int) ≤ ({ defaultFlags with duration := 2, withWarmup := true } : Flags).duration ∧
    (runTraceMode (sampleWorld (sampleTrace 2) 2)
      { defaultFlags with duration := 2, withWarmup := true } []).nextPhaseStart ≤
      profilingMinutes 2 ∧
    (runTraceMode (sampleWorld (sampleTrace 2) 2)
      { defaultFlags with duration := 2, withWarmup := true } []).status = Status.returned :=
  ⟨by decide, by decide,
    ((C8_slices_in_bounds_within_budget (sampleWorld (sampleTrace 2) 2)
      { defaultFlags with duration := 2, withWarmup := true } []).2.1
      (by decide) (by decide) (by decide) (by decide) (by decide)).2.2⟩

/-- C9: `runTraceMode` calls `DumpOverloadFlag` if and only if the measurement
start minute equals the duration (`nextPhaseStart == duration`), and then once.
Consequently, for every duration `≥ 3` and every exit minute `k` with
`0 ≤ k ≤ duration/2 + 1` the call is never made, and an exit minute within the
budget can lead to the call only for the durations 0, 1 and 2, for each of which
the duration itself is such an exit minute. -/
theorem C9_overload_iff_start_equals_duration {Stats : Type} (w : World Stats) (flags : Flags)
    (hist : List (Event Stats)) :
    (Event.DumpOverloadFlag ∈ (runTraceMode w flags hist).log ↔
      (runTraceMode w flags hist).nextPhaseStart = flags.duration) ∧
    (runTraceMode w flags hist).log.filter Event.isOverload =
      (if (runTraceMode w flags hist).nextPhaseStart = flags.duration then
        [Event.DumpOverloadFlag] else []) ∧
    (3 ≤ flags.duration → 0 ≤ (runTraceMode w flags hist).nextPhaseStart →
      (runTraceMode w flags hist).nextPhaseStart ≤ profilingMinutes flags.duration →
      Event.DumpOverloadFlag ∉ (runTraceMode w flags hist).log) ∧
    (0 ≤ (runTraceMode w flags hist).nextPhaseStart →
      (runTraceMode w flags hist).nextPhaseStart ≤ profilingMinutes flags.duration →
      Event.DumpOverloadFlag ∈ (runTraceMode w flags hist).log →
      flags.duration = 0 ∨ flags.duration = 1 ∨ flags.duration = 2) ∧
    (∀ d : Int, d = 0 ∨ d = 1 ∨ d = 2 → 0 ≤ d ∧ d ≤ profilingMinutes d) := by
  have hiff := runTraceMode_overload_mem w flags hist
  refine ⟨hiff, runTraceMode_overload w flags hist, ?_, ?_, ?_⟩
  · intro hd h₀ hk hmem
    rw [profilingMinutes_of_nonneg _ (by omega)] at hk
    have := hiff.1 hmem
    omega
  · intro h₀ hk hmem
    have he := hiff.1 hmem
    have hd : 0 ≤ flags.duration := by omega
    rw [profilingMinutes_of_nonneg _ hd] at hk
    omega
  · rintro d (rfl | rfl | rfl) <;> decide

/-- C9 at duration 6 with exit minute 4, the budget: the overload call is not
made. -/
theorem C9_overload_iff_start_equals_duration_witness :
    (3 : Int) ≤ ({ defaultFlags with duration := 6, withWarmup := true } : Flags).duration ∧
    (runTraceMode (sampleWorld (sampleTrace 6) 4)
      { defaultFlags with duration := 6, withWarmup := true } []).nextPhaseStart ≤
      profilingMinutes 6 ∧
    Event.DumpOverloadFlag ∉ (runTraceMode (sampleWorld (sampleTrace 6) 4)
      { defaultFlags with duration := 6, withWarmup := true } []).log :=
  ⟨by decide, by decide,
    (C9_overload_iff_start_equals_duration (sampleWorld (sampleTrace 6) 4)
      { defaultFlags with duration := 6, withWarmup := true } []).2.2.1
      (by decide) (by decide) (by decide)⟩

/-- C10: with warmup disabled, `runTraceMode` calls `DumpOverloadFlag` if and only
if the duration is 0: for every other duration the flag is never raised, and
for duration 0 it is raised, once, although the warmup governor was not
called. -/
theorem C10_no_warmup_overload_iff_duration_zero {Stats : Type} (w : World Stats)
    (flags : Flags) (hist : List (Event Stats)) (hw : flags.withWarmup = false) :
    (Event.DumpOverloadFlag ∈ (runTraceMode w flags hist).log ↔ flags.duration = 0) ∧
    (runTraceMode w flags hist).log.filter Event.isOverload =
      (if flags.duration = 0 then [Event.DumpOverloadFlag] else []) ∧
    (runTraceMode w flags hist).log.filter Event.isWarmup = [] := by
  obtain ⟨-, hk, -, hl⟩ := runTraceMode_off w flags hist hw
  obtain ⟨t₀, t₁, p₀, p₁, p₂, hp⟩ := parseTraces_log w flags hist
  refine ⟨?_, ?_, ?_⟩
  · rw [runTraceMode_overload_mem, hk]
    exact eq_comm
  · rw [runTraceMode_overload, hk]
    by_cases hd : flags.duration = 0
    · rw [if_pos hd, if_pos hd.symm]
    · rw [if_neg hd, if_neg (fun h => hd h.symm)]
  · rw [hl, hp]
    by_cases hd : flags.duration = 0 <;> simp [hd, List.filter_cons]

/-- C10 at duration 0 with the other flags at their defaults (warmup disabled):
the overload flag is raised. -/
theorem C10_no_warmup_overload_iff_duration_zero_witness :
    ({ defaultFlags with duration := 0 } : Flags).withWarmup = false ∧
    (runTraceMode (sampleWorld (sampleTrace 0) 0)
      { defaultFlags with duration := 0 } []).log.filter Event.isOverload =
      [Event.DumpOverloadFlag] :=
  ⟨rfl,
    (C10_no_warmup_overload_iff_duration_zero (sampleWorld (sampleTrace 0) 0)
      { defaultFlags with duration := 0 } [] rfl).2.1⟩

end Loader
